import Mathlib

/-!
Verification of the Foreman Ansible hosts inventory generator.

Shallow embedding of the repository's core pipeline:
  * `modules/frmn_envparser.py` — `AnsibleInventory` (`__init__`, `parse_envs`,
    `parse_hosts`): HTTP fetch with error classification, `defaultdict(list)`
    grouping, inventory-file serialization;
  * `main.py` / `inventory_generator.py` — CLI dispatch in
    `generate_ansible_hosts`.

The network, the wall clock and the local file system are external to the
program, so they enter the embedding as explicit inputs: the outcome of the
one `requests.get` call is a `NetOutcome`, the formatted timestamp is a
string argument, and success of `open(..., 'w')` is a boolean.
-/

namespace Foreman

/-! ## Grouper

Both `parse_envs` (frmn_envparser.py lines 84–97) and `parse_hosts`
(lines 147–160) accumulate `(key, value)` pairs into a
`defaultdict(list)` via `results_dict[key].append(value)`.  Python dicts
preserve insertion order, so the mapping is embedded as an association
list in key-insertion order: appending to an existing key's list when the
key is present, adding a new `(key, [value])` entry at the end otherwise. -/

/-- One `results_dict[kv.1].append(kv.2)` step on the ordered mapping. -/
def insertPair {β : Type} (acc : List (String × List β)) (kv : String × β) :
    List (String × List β) :=
  if acc.any (fun p => p.1 == kv.1) then
    acc.map (fun p => if p.1 == kv.1 then (p.1, p.2 ++ [kv.2]) else p)
  else
    acc ++ [(kv.1, [kv.2])]

/-- The whole grouping loop: `for k, v in zip(keys, values): results_dict[k].append(v)`
starting from an empty `defaultdict(list)`. -/
def groupPairs {β : Type} (l : List (String × β)) : List (String × List β) :=
  l.foldl insertPair []

/-- Reading one key's list out of the ordered mapping (missing key ↦ `[]`,
matching `defaultdict(list)` semantics for a key that was never appended to). -/
def lookupGroup {β : Type} (acc : List (String × List β)) (k : String) : List β :=
  match acc.find? (fun p => p.1 == k) with
  | some p => p.2
  | none => []

/-- Order of first occurrence of each key in a key sequence. -/
def firstOccKeys (ks : List String) : List String :=
  ks.foldl (fun seen k => if k ∈ seen then seen else seen ++ [k]) []

/-- The subsequence of values whose records carry key `k`, in input order. -/
def valuesFor {β : Type} (k : String) (l : List (String × β)) : List β :=
  (l.filter (fun kv => kv.1 == k)).map Prod.snd

/-! ## Records and response bodies -/

/-- One element of the `results` array of the hosts endpoint
(`data['hostgroup_title']`, `data['name']` in `parse_hosts`). -/
structure HostRecord where
  hostgroup_title : String
  name : String
deriving DecidableEq, Repr

/-- One element of the `results` array of the environments endpoint
(`data['name']`, `data['id']` in `parse_envs`). -/
structure EnvRecord where
  name : String
  id : Int
deriving DecidableEq, Repr

/-- Shape of a response body as seen by `json.loads(response)` followed by
`foreman_data['results']`: either valid JSON carrying a `results` array of
records, text that is not valid JSON, or valid JSON without a `results` key. -/
inductive BodyContent (α : Type) where
  | resultsOf (records : List α)
  | invalidJson
  | missingResults
deriving DecidableEq

/-- Python exception classes relevant to the `try`/`except` blocks:
the four `requests.exceptions` classes named by the handlers, plus the two
classes that the JSON-extraction lines can raise. -/
inductive PyExnClass where
  | requestsHTTPError
  | requestsConnectionError
  | requestsTimeout
  | requestsRequestException
  | jsonDecodeError
  | keyError
deriving DecidableEq, Repr

/-- Exceptions raised by `json.loads(response)` (a `json.JSONDecodeError`)
or by `foreman_data['results']` (a `KeyError` carrying the key). -/
inductive PyExn where
  | jsonDecodeError
  | keyError (key : String)
deriving DecidableEq, Repr

def PyExn.exnClass : PyExn → PyExnClass
  | .jsonDecodeError => .jsonDecodeError
  | .keyError _ => .keyError

/-- Whether a class is (a subclass of) `requests.exceptions.RequestException`.
`json.JSONDecodeError` subclasses `ValueError` and `KeyError` subclasses
`LookupError`; neither is a requests exception. -/
def isRequestsException : PyExnClass → Bool
  | .requestsHTTPError => true
  | .requestsConnectionError => true
  | .requestsTimeout => true
  | .requestsRequestException => true
  | .jsonDecodeError => false
  | .keyError => false

/-- The four `except` clauses of `parse_envs` and `parse_hosts` catch
`HTTPError`, `ConnectionError`, `Timeout` and `RequestException`; the first
three are subclasses of the fourth, so together they catch exactly the
exceptions whose class is a requests exception. -/
def caughtByExceptHandlers (c : PyExnClass) : Bool :=
  isRequestsException c

/-- Extracting the record list from a body, as `json.loads` + `['results']`
do: malformed bodies raise, they are not mapped to a handled error value. -/
def parseBody {α : Type} : BodyContent α → Except PyExn (List α)
  | .resultsOf records => .ok records
  | .invalidJson => .error .jsonDecodeError
  | .missingResults => .error (.keyError "results")

/-! ## HTTP fetch and error classification -/

/-- `timeout=5` passed to `requests.get` in both `parse_envs` and `parse_hosts`. -/
def requestTimeoutSeconds : Nat := 5

/-- Outcome of the single `requests.get(url, verify=False, timeout=5, auth=...)`
call, as decided by the network: a response with a status code and a body,
or one of the transport failures `requests` signals by raising.
`timeout` is the case in which no response arrived within
`requestTimeoutSeconds` seconds. -/
inductive NetOutcome (α : Type) where
  | response (status : Nat) (body : BodyContent α)
  | connectionFailure
  | timeout
  | otherTransportFailure
deriving DecidableEq

/-- The error classes distinguished by the four `except` clauses. -/
inductive FetchError where
  | httpError (status : Nat)
  | connectionError
  | timeoutError
  | otherRequestError
deriving DecidableEq, Repr

/-- `requests.get` followed by `r.raise_for_status()`:
`raise_for_status` raises `requests.exceptions.HTTPError` exactly when the
status code is in 400–599; transport failures surface as the corresponding
`requests` exception class. On success the body text is handed on. -/
def classifyFetch {α : Type} : NetOutcome α → Except FetchError (BodyContent α)
  | .response status body =>
      if 400 ≤ status ∧ status < 600 then .error (.httpError status) else .ok body
  | .connectionFailure => .error .connectionError
  | .timeout => .error .timeoutError
  | .otherTransportFailure => .error .otherRequestError

/-- The diagnostic printed by the matching `except` clause:
`print(f'HTTP error: {errh}')`, `print(f'Connection error: {errc}')`,
`print(f'Timeout error: {errt}')`, `print(f'General error: {errr}')`.
The exception's own rendering is summarized by its status code for
`HTTPError` and elided for the others. -/
def classifiedMessage : FetchError → String
  | .httpError status => "HTTP error: " ++ toString status
  | .connectionError => "Connection error: "
  | .timeoutError => "Timeout error: "
  | .otherRequestError => "General error: "

/-! ## AnsibleInventory -/

/-- The `AnsibleInventory` object after `__init__` ran. -/
structure AnsibleInventory where
  base_url : String
  username : String
  password : String
  envid : String
  hfile : String
deriving DecidableEq, Repr

/-- `__init__(self, envid, base_url, username, password, hostfile)`:
stores the credentials and computes
`self.hfile = str(Path.home()) + os.path.sep + hostfile + envid`.
`home` and `sep` stand for `str(Path.home())` and `os.path.sep`. -/
def AnsibleInventory.make (envid base_url username password hostfile home sep : String) :
    AnsibleInventory :=
  { base_url := base_url
    username := username
    password := password
    envid := envid
    hfile := home ++ sep ++ hostfile ++ envid }

/-- `url = f'{self.base_url + environment_id}/hosts?per_page=100000'`
in `parse_hosts`. -/
def hostsUrl (inv : AnsibleInventory) (environment_id : String) : String :=
  inv.base_url ++ environment_id ++ "/hosts?per_page=100000"

/-! ## Inventory file serialization (`parse_hosts` write loop) -/

/-- The header comment line:
`f'# Ansible hosts file for Foreman inventory id {environment_id} generated on {fdate}\n'`. -/
def headerLine (environment_id fdate : String) : String :=
  "# Ansible hosts file for Foreman inventory id " ++ environment_id ++
    " generated on " ++ fdate ++ "\n"

/-- One group section: `hosts.write(f'\n[{key}]\n')` then
`hosts.write(f'{val}\n')` for each value of the key. -/
def renderSection (p : String × List String) : String :=
  "\n[" ++ p.1 ++ "]\n" ++ String.join (p.2.map (fun v => v ++ "\n"))

/-- The write loop over `results_dict` in key-insertion order. -/
def renderGroups (groups : List (String × List String)) : String :=
  String.join (groups.map renderSection)

/-- Complete file content of one successful `parse_hosts` run. -/
def renderInventory (environment_id fdate : String)
    (groups : List (String × List String)) : String :=
  headerLine environment_id fdate ++ renderGroups groups

/-! ## File-system model for the write -/

/-- Mode of the `open` call; `parse_hosts` uses `open(self.hfile, 'w')`. -/
inductive OpenMode where
  | write
  | append
deriving DecidableEq, Repr

/-- The mode `'w'` in `open(self.hfile, 'w')`. -/
def inventoryOpenMode : OpenMode := OpenMode.write

/-- Effect of writing `content` at `path` on a file system (paths to optional
contents): `'w'` truncates then writes, `'a'` would append to what is there. -/
def writeWithMode (fs : String → Option String) (path content : String)
    (mode : OpenMode) : String → Option String :=
  fun q =>
    if q = path then
      match mode with
      | .write => some content
      | .append => some ((fs path).getD "" ++ content)
    else fs q

/-! ## parse_hosts -/

/-- What a `parse_hosts` invocation does, observably: it either writes the
inventory file and prints the success message, prints one classified
transport-error message and returns, escapes with an uncaught exception,
or hits the `IOError` branch while opening the target file. -/
inductive HostsOutcome where
  | wroteFile (path content message : String)
  | fetchFailed (message : String)
  | uncaughtExn (e : PyExn)
  | fileOpenFailed (message : String)
deriving DecidableEq, Repr

/-- `parse_hosts(self, environment_id)` (frmn_envparser.py lines 113–185):
build the URL, fetch with classification, extract `results`, group
`(hostgroup_title, name)` pairs, and write header plus sections to
`self.hfile` opened with `'w'`. `fdate` is the `now().strftime(...)`
timestamp; `openOk` is whether `open(self.hfile, 'w')` succeeds. -/
def parseHosts (inv : AnsibleInventory) (environment_id fdate : String)
    (net : NetOutcome HostRecord) (openOk : Bool) : HostsOutcome :=
  match classifyFetch net with
  | .error e => .fetchFailed (classifiedMessage e)
  | .ok body =>
    match parseBody body with
    | .error exn => .uncaughtExn exn
    | .ok records =>
      let pairs := records.map (fun r => (r.hostgroup_title, r.name))
      let groups := groupPairs pairs
      let content := renderInventory environment_id fdate groups
      if openOk then
        .wroteFile inv.hfile content
          ("The following inventory file has been generated locally: " ++ inv.hfile)
      else
        .fileOpenFailed ("Error opening the target file: " ++ inv.hfile ++
          ", please check.")

/-- The file a `parse_hosts` outcome left on disk, if any. -/
def writtenFile : HostsOutcome → Option (String × String)
  | .wroteFile path content _ => some (path, content)
  | _ => none

/-- The classified transport-error diagnostic a `parse_hosts` outcome
printed, if any. -/
def printedClassifiedError : HostsOutcome → Option String
  | .fetchFailed message => some message
  | _ => none

/-! ## parse_envs -/

/-- Observable result of `parse_envs`: the grouped name ↦ ids mapping it
prints as a table, a classified transport error, or an uncaught exception. -/
inductive EnvsOutcome where
  | printedTable (groups : List (String × List Int))
  | fetchFailed (message : String)
  | uncaughtExn (e : PyExn)
deriving DecidableEq, Repr

/-- `parse_envs(self)` (frmn_envparser.py lines 70–111): fetch
`self.base_url`, extract `results`, group `(name, id)` pairs, print one
line per key. -/
def parseEnvs (_inv : AnsibleInventory) (net : NetOutcome EnvRecord) : EnvsOutcome :=
  match classifyFetch net with
  | .error e => .fetchFailed (classifiedMessage e)
  | .ok body =>
    match parseBody body with
    | .error exn => .uncaughtExn exn
    | .ok records =>
      .printedTable (groupPairs (records.map (fun r => (r.name, r.id))))

/-! ## CLI dispatch (`generate_ansible_hosts`) -/

/-- The `--action` choices of `parse_args` (`choices=['listenvs', 'parseenv']`,
default `'listenvs'`). -/
inductive Action where
  | listenvs
  | parseenv
deriving DecidableEq, Repr

/-- How the process run ends: falling off `generate_ansible_hosts`
(exit status 0), or `exit(message)`, which raises `SystemExit` with the
message and makes the interpreter exit with status 1. -/
inductive ExitKind where
  | normal
  | usageExit (status : Nat) (message : String)
deriving DecidableEq, Repr

/-- Observable effects of one `generate_ansible_hosts` run: how many HTTP
fetches were issued and how the process ended. -/
structure DispatchResult where
  httpFetches : Nat
  exit : ExitKind
deriving DecidableEq, Repr

/-- The `exit(...)` message of `main.py` (lines 39–44). -/
def mainUsageMessage : String :=
  "Error: Please provide a valid Foreman environment ID. " ++
  "You can list all environments using the <-a listenvs | --action listenvs> option, " ++
  "or access help using <-h | --help>."

/-- The `exit(...)` message of `inventory_generator.py` (lines 38–42). -/
def legacyUsageMessage : String :=
  "Please provide (correct) Foreman environment ID. List all " ++
  "environments supplying the <-a listenvs | --action " ++
  "listenvs> argument to the script, or display full help " ++
  "message <-h | --help>"

/-- `generate_ansible_hosts` of `main.py`: construct the inventory object
(no fetch), then dispatch. `parse_envs` and `parse_hosts` each issue
exactly one `requests.get`; the missing-environment branch calls
`exit(...)` before any fetch. -/
def generate_ansible_hosts (action : Action) (environment : Option String) :
    DispatchResult :=
  match action with
  | .listenvs => { httpFetches := 1, exit := .normal }
  | .parseenv =>
    match environment with
    | some _ => { httpFetches := 1, exit := .normal }
    | none => { httpFetches := 0, exit := .usageExit 1 mainUsageMessage }

/-- `generate_ansible_hosts` of `inventory_generator.py`: same control flow
(two independent `if`s on a single-valued action selector), different
usage message. -/
def generate_ansible_hosts_legacy (action : Action) (environment : Option String) :
    DispatchResult :=
  match action with
  | .listenvs => { httpFetches := 1, exit := .normal }
  | .parseenv =>
    match environment with
    | some _ => { httpFetches := 1, exit := .normal }
    | none => { httpFetches := 0, exit := .usageExit 1 legacyUsageMessage }

/-! ## Renderings of spec sentences needed to state the claims -/

/-- Rendering of claim C4's failure condition, following its words:
"the HTTP fetch fails (connection error, timeout, non-2xx status, or other
transport failure)" — in particular any response whose status is not in
200–299 counts as a failed fetch. -/
def specFetchFails {α : Type} : NetOutcome α → Bool
  | .response status _ => !(200 ≤ status && status < 300)
  | .connectionFailure => true
  | .timeout => true
  | .otherTransportFailure => true

/-- A sample constructed inventory object, for concrete evaluations. -/
def sampleInv : AnsibleInventory :=
  AnsibleInventory.make "7" "https://foreman.example/api/environments/"
    "admin" "secret" "foreman_hosts_" "/home/user" "/"

/-! ## Grouper lemmas -/

theorem any_beq_iff_mem_keys {β : Type} (acc : List (String × List β)) (k : String) :
    acc.any (fun p => p.1 == k) = true ↔ k ∈ acc.map Prod.fst := by
  rw [List.any_eq_true]
  constructor
  · rintro ⟨p, hp, hb⟩
    exact List.mem_map.mpr ⟨p, hp, by simpa using hb⟩
  · intro h
    obtain ⟨p, hp, he⟩ := List.mem_map.mp h
    exact ⟨p, hp, by simp [he]⟩

theorem insertPair_keys {β : Type} (acc : List (String × List β)) (kv : String × β) :
    (insertPair acc kv).map Prod.fst =
      if kv.1 ∈ acc.map Prod.fst then acc.map Prod.fst
      else acc.map Prod.fst ++ [kv.1] := by
  unfold insertPair
  by_cases h : kv.1 ∈ acc.map Prod.fst
  · rw [if_pos ((any_beq_iff_mem_keys acc kv.1).mpr h), if_pos h, List.map_map]
    apply List.map_congr_left
    intro p _
    by_cases hp : p.1 = kv.1 <;> simp [hp]
  · rw [if_neg (fun hc => h ((any_beq_iff_mem_keys acc kv.1).mp hc)), if_neg h,
      List.map_append]
    simp

theorem foldl_insertPair_keys {β : Type} (l : List (String × β))
    (acc : List (String × List β)) :
    (l.foldl insertPair acc).map Prod.fst =
      (l.map Prod.fst).foldl
        (fun seen k => if k ∈ seen then seen else seen ++ [k]) (acc.map Prod.fst) := by
  induction l generalizing acc with
  | nil => rfl
  | cons kv l ih =>
    simp only [List.foldl_cons, List.map_cons]
    rw [ih, insertPair_keys]

theorem lookupGroup_insertPair {β : Type} (acc : List (String × List β))
    (kv : String × β) (k : String) :
    lookupGroup (insertPair acc kv) k =
      lookupGroup acc k ++ if kv.1 = k then [kv.2] else [] := by
  unfold insertPair
  by_cases hany : kv.1 ∈ acc.map Prod.fst
  · rw [if_pos ((any_beq_iff_mem_keys acc kv.1).mpr hany)]
    unfold lookupGroup
    rw [List.find?_map]
    have hpf : ((fun p : String × List β => p.1 == k) ∘
        (fun p => if p.1 == kv.1 then (p.1, p.2 ++ [kv.2]) else p)) =
        fun p : String × List β => p.1 == k := by
      funext p
      by_cases hp : p.1 = kv.1 <;> simp [hp]
    rw [hpf]
    cases hfind : acc.find? (fun p => p.1 == k) with
    | some q =>
      have hq : q.1 = k := by simpa using List.find?_some hfind
      by_cases hk : kv.1 = k
      · simp [Option.map_some, hq, hk]
      · have hne : q.1 ≠ kv.1 := by rw [hq]; exact fun he => hk he.symm
        simp [Option.map_some, hne, hk]
    | none =>
      have hk : kv.1 ≠ k := by
        intro he
        obtain ⟨p, hp, hpk⟩ := List.mem_map.mp hany
        have := List.find?_eq_none.mp hfind p hp
        simp [hpk, he] at this
      simp [Option.map_none, hk]
  · rw [if_neg (fun hc => hany ((any_beq_iff_mem_keys acc kv.1).mp hc))]
    unfold lookupGroup
    rw [List.find?_append]
    cases hfind : acc.find? (fun p => p.1 == k) with
    | some q =>
      have hq : q.1 = k := by simpa using List.find?_some hfind
      have hqmem : q ∈ acc := List.mem_of_find?_eq_some hfind
      have hk : kv.1 ≠ k := by
        intro he
        exact hany (List.mem_map.mpr ⟨q, hqmem, by rw [hq, he]⟩)
      simp [Option.or, hk]
    | none =>
      by_cases hk : kv.1 = k
      · simp [List.find?, hk]
      · have : ¬ (kv.1 == k) = true := by simpa using hk
        simp [List.find?, this, hk]

theorem lookupGroup_foldl_insertPair {β : Type} (l : List (String × β))
    (acc : List (String × List β)) (k : String) :
    lookupGroup (l.foldl insertPair acc) k = lookupGroup acc k ++ valuesFor k l := by
  induction l generalizing acc with
  | nil => simp [valuesFor]
  | cons kv l ih =>
    simp only [List.foldl_cons]
    rw [ih, lookupGroup_insertPair]
    have hv : valuesFor k (kv :: l) = (if kv.1 = k then [kv.2] else []) ++ valuesFor k l := by
      by_cases h : kv.1 = k <;> simp [valuesFor, List.filter_cons, h]
    rw [hv, List.append_assoc]

theorem insertPair_keys_nodup {β : Type} (acc : List (String × List β))
    (kv : String × β) (h : (acc.map Prod.fst).Nodup) :
    ((insertPair acc kv).map Prod.fst).Nodup := by
  rw [insertPair_keys]
  by_cases hm : kv.1 ∈ acc.map Prod.fst
  · simpa [hm] using h
  · simp only [hm, if_false]
    simp [List.nodup_append, h, hm]

theorem map_insert_cond_id {β : Type} (acc : List (String × List β))
    (kv : String × β) (h : kv.1 ∉ acc.map Prod.fst) :
    acc.map (fun p => if p.1 == kv.1 then (p.1, p.2 ++ [kv.2]) else p) = acc := by
  conv_rhs => rw [← List.map_id acc]
  apply List.map_congr_left
  intro p hp
  have hne : p.1 ≠ kv.1 := fun he => h (List.mem_map.mpr ⟨p, hp, he⟩)
  simp [hne]

theorem sum_lengths_map_cond {β : Type} (acc : List (String × List β))
    (kv : String × β) (hmem : kv.1 ∈ acc.map Prod.fst)
    (h : (acc.map Prod.fst).Nodup) :
    ((acc.map (fun p => if p.1 == kv.1 then (p.1, p.2 ++ [kv.2]) else p)).map
        (fun p => p.2.length)).sum =
      (acc.map (fun p => p.2.length)).sum + 1 := by
  induction acc with
  | nil => simp at hmem
  | cons a acc ih =>
    rw [List.map_cons, List.nodup_cons] at h
    rw [List.map_cons, List.mem_cons] at hmem
    by_cases ha : a.1 = kv.1
    · have htail : kv.1 ∉ acc.map Prod.fst := ha ▸ h.1
      rw [List.map_cons, List.map_cons, List.map_cons, List.sum_cons,
        List.sum_cons, map_insert_cond_id acc kv htail]
      simp [ha]
      omega
    · have hm : kv.1 ∈ acc.map Prod.fst := by
        rcases hmem with he | hm
        · exact absurd he.symm ha
        · exact hm
      rw [List.map_cons, List.map_cons, List.map_cons, List.sum_cons, List.sum_cons,
        ih hm h.2]
      simp [ha]
      omega

theorem sum_lengths_insertPair {β : Type} (acc : List (String × List β))
    (kv : String × β) (h : (acc.map Prod.fst).Nodup) :
    ((insertPair acc kv).map (fun p => p.2.length)).sum =
      (acc.map (fun p => p.2.length)).sum + 1 := by
  unfold insertPair
  by_cases hm : kv.1 ∈ acc.map Prod.fst
  · rw [if_pos ((any_beq_iff_mem_keys acc kv.1).mpr hm)]
    exact sum_lengths_map_cond acc kv hm h
  · rw [if_neg (fun hc => hm ((any_beq_iff_mem_keys acc kv.1).mp hc))]
    simp

theorem sum_lengths_foldl_insertPair {β : Type} (l : List (String × β))
    (acc : List (String × List β)) (h : (acc.map Prod.fst).Nodup) :
    ((l.foldl insertPair acc).map (fun p => p.2.length)).sum =
      (acc.map (fun p => p.2.length)).sum + l.length := by
  induction l generalizing acc with
  | nil => simp
  | cons kv l ih =>
    simp only [List.foldl_cons, List.length_cons]
    rw [ih _ (insertPair_keys_nodup acc kv h), sum_lengths_insertPair acc kv h]
    omega

/-! ## Claim theorems -/

/-- C1: For every input sequence of (key, value) record pairs fed to the
grouping loop shared by `parse_envs` and `parse_hosts`, the resulting
mapping's key order equals the order of first occurrence of each key in the
input, and each key's value list equals the subsequence of the input values
whose records carry that key, in original input order. -/
theorem grouper_first_seen_order_and_value_subsequences {β : Type}
    (l : List (String × β)) :
    (groupPairs l).map Prod.fst = firstOccKeys (l.map Prod.fst) ∧
    ∀ k, lookupGroup (groupPairs l) k = valuesFor k l := by
  constructor
  · simpa [groupPairs, firstOccKeys] using foldl_insertPair_keys l []
  · intro k
    simpa [groupPairs, lookupGroup, List.find?] using
      lookupGroup_foldl_insertPair l [] k

/-- C2: The grouping step places each input record's value in exactly one
key's list exactly once: the total count of values across all groups equals
the input sequence length, and each key's list is exactly the values of the
records carrying that key (duplicate keys accumulate rather than overwrite). -/
theorem grouper_completeness {β : Type} (l : List (String × β)) :
    ((groupPairs l).map (fun p => p.2.length)).sum = l.length ∧
    ∀ k, lookupGroup (groupPairs l) k = valuesFor k l := by
  constructor
  · simpa [groupPairs] using sum_lengths_foldl_insertPair l [] (by simp)
  · intro k
    simpa [groupPairs, lookupGroup, List.find?] using
      lookupGroup_foldl_insertPair l [] k

/-- C3: The written inventory file is exactly one leading header comment
line followed, for each group in first-seen key order, by a blank line, a
bracketed group header and one host per line in first-seen order; in
particular for the records web/h1, db/h2, web/h3 the body after the header
is exactly "\n[web]\nh1\nh3\n\n[db]\nh2\n". -/
theorem inventory_file_layout (inv : AnsibleInventory) (e d : String) :
    (∀ groups, renderInventory e d groups
        = headerLine e d ++ String.join (groups.map (fun p =>
            "\n[" ++ p.1 ++ "]\n" ++ String.join (p.2.map (fun v => v ++ "\n"))))) ∧
    parseHosts inv e d (.response 200 (.resultsOf
        [⟨"web", "h1"⟩, ⟨"db", "h2"⟩, ⟨"web", "h3"⟩])) true =
      .wroteFile inv.hfile (headerLine e d ++ "\n[web]\nh1\nh3\n\n[db]\nh2\n")
        ("The following inventory file has been generated locally: " ++ inv.hfile) := by
  constructor
  · intro groups
    rfl
  · have hR : renderInventory e d [("web", ["h1", "h3"]), ("db", ["h2"])] =
        headerLine e d ++ "\n[web]\nh1\nh3\n\n[db]\nh2\n" := by
      unfold renderInventory
      congr 1
    rw [show parseHosts inv e d (.response 200 (.resultsOf
        [⟨"web", "h1"⟩, ⟨"db", "h2"⟩, ⟨"web", "h3"⟩])) true =
      HostsOutcome.wroteFile inv.hfile
        (renderInventory e d [("web", ["h1", "h3"]), ("db", ["h2"])])
        ("The following inventory file has been generated locally: " ++ inv.hfile)
      from rfl, hR]

/-- C4 (as stated) is false on the code: a 304 response is non-2xx, hence a
"failed fetch" in the claim's sense, yet `raise_for_status` does not raise
for it — with a well-formed body `parse_hosts` prints no classified error
and does write a file. -/
theorem non2xx_fetch_counterexample :
    specFetchFails (NetOutcome.response 304
        (BodyContent.resultsOf ([] : List HostRecord))) = true ∧
    printedClassifiedError (parseHosts sampleInv "7" "01/01/2026 00:00:00"
        (.response 304 (.resultsOf [])) true) = none ∧
    writtenFile (parseHosts sampleInv "7" "01/01/2026 00:00:00"
        (.response 304 (.resultsOf [])) true) ≠ none := by
  exact ⟨rfl, rfl, by decide⟩

/-- C4 (amended): for every fetch that the code classifies as failed —
connection error, timeout, 4xx/5xx status, or other transport failure —
`parse_hosts` prints the classified error and returns without creating or
writing any file. -/
theorem fetch_failure_prints_error_writes_no_file (inv : AnsibleInventory)
    (e d : String) (net : NetOutcome HostRecord) (openOk : Bool)
    (err : FetchError) (h : classifyFetch net = .error err) :
    printedClassifiedError (parseHosts inv e d net openOk)
        = some (classifiedMessage err) ∧
    writtenFile (parseHosts inv e d net openOk) = none := by
  unfold parseHosts
  rw [h]
  exact ⟨rfl, rfl⟩

theorem fetch_failure_prints_error_writes_no_file_witness :
    printedClassifiedError (parseHosts sampleInv "7" "01/01/2026 00:00:00"
        NetOutcome.timeout true) = some (classifiedMessage .timeoutError) ∧
    writtenFile (parseHosts sampleInv "7" "01/01/2026 00:00:00"
        NetOutcome.timeout true) = none :=
  fetch_failure_prints_error_writes_no_file sampleInv "7" "01/01/2026 00:00:00"
    NetOutcome.timeout true FetchError.timeoutError rfl

/-- C5: the four failure kinds are classified distinguishably — a timed-out
fetch surfaces as the timeout class, distinct from a connection refusal and
from a 404 (HTTP status class carrying the code) — and each kind gets its
own distinct diagnostic message; the request timeout is 5 seconds. -/
theorem fetch_error_classification_distinct :
    requestTimeoutSeconds = 5 ∧
    classifyFetch (NetOutcome.timeout : NetOutcome HostRecord)
        = .error .timeoutError ∧
    classifyFetch (NetOutcome.connectionFailure : NetOutcome HostRecord)
        = .error .connectionError ∧
    (∀ b : BodyContent HostRecord,
      classifyFetch (.response 404 b) = .error (.httpError 404)) ∧
    (FetchError.timeoutError ≠ .connectionError ∧
      FetchError.timeoutError ≠ .httpError 404 ∧
      FetchError.connectionError ≠ .httpError 404) ∧
    (classifiedMessage .timeoutError ≠ classifiedMessage .connectionError ∧
      classifiedMessage .timeoutError ≠ classifiedMessage (.httpError 404) ∧
      classifiedMessage .timeoutError ≠ classifiedMessage .otherRequestError ∧
      classifiedMessage .connectionError ≠ classifiedMessage (.httpError 404) ∧
      classifiedMessage .connectionError ≠ classifiedMessage .otherRequestError ∧
      classifiedMessage (.httpError 404) ≠ classifiedMessage .otherRequestError) :=
  ⟨rfl, rfl, rfl, fun _ => rfl, by decide, by decide⟩

/-- C6: invoking the `parseenv` action without an environment identifier
performs no HTTP fetch and terminates via `exit(...)` with a non-zero
status and a nonempty usage message — in both `main.py` and
`inventory_generator.py`. -/
theorem missing_environment_id_exits_without_fetch :
    (generate_ansible_hosts .parseenv none).httpFetches = 0 ∧
    (generate_ansible_hosts .parseenv none).exit = .usageExit 1 mainUsageMessage ∧
    (generate_ansible_hosts_legacy .parseenv none).httpFetches = 0 ∧
    (generate_ansible_hosts_legacy .parseenv none).exit
        = .usageExit 1 legacyUsageMessage ∧
    (1 : Nat) ≠ 0 ∧ mainUsageMessage ≠ "" ∧ legacyUsageMessage ≠ "" :=
  ⟨rfl, rfl, rfl, rfl, by decide, by decide, by decide⟩

/-- C7: a successful fetch whose parsed body has an empty `results` array
makes `parse_hosts` write a file containing only the header comment line
and no group sections. -/
theorem empty_results_writes_header_only (inv : AnsibleInventory)
    (e d : String) (net : NetOutcome HostRecord)
    (h : classifyFetch net = .ok (.resultsOf [])) :
    parseHosts inv e d net true =
      .wroteFile inv.hfile (headerLine e d)
        ("The following inventory file has been generated locally: "
          ++ inv.hfile) := by
  unfold parseHosts
  rw [h]
  show HostsOutcome.wroteFile _ (renderInventory e d (groupPairs [])) _ = _
  simp [renderInventory, renderGroups, groupPairs, String.join]

theorem empty_results_writes_header_only_witness :
    parseHosts sampleInv "7" "01/01/2026 00:00:00"
        (.response 200 (.resultsOf [])) true =
      .wroteFile sampleInv.hfile (headerLine "7" "01/01/2026 00:00:00")
        ("The following inventory file has been generated locally: "
          ++ sampleInv.hfile) :=
  empty_results_writes_header_only sampleInv "7" "01/01/2026 00:00:00"
    (.response 200 (.resultsOf [])) rfl

/-- C8: the output file path is home directory, then path separator, then
configured file-name prefix, then environment id; the file is opened in
truncate mode ('w', not append), so a second run's content fully replaces
the first run's. -/
theorem hfile_path_and_truncate_semantics
    (envid base_url username password hostfile home sep : String) :
    (AnsibleInventory.make envid base_url username password hostfile home sep).hfile
        = home ++ sep ++ hostfile ++ envid ∧
    inventoryOpenMode = OpenMode.write ∧
    (∀ (fs : String → Option String) (path c₁ c₂ : String),
      writeWithMode (writeWithMode fs path c₁ inventoryOpenMode) path c₂
          inventoryOpenMode path = some c₂) := by
  refine ⟨rfl, rfl, fun fs path c₁ c₂ => ?_⟩
  simp [writeWithMode, inventoryOpenMode]

/-- C9: on a 2xx response whose body is not valid JSON or lacks the
`results` key, `parse_envs` and `parse_hosts` escape with an uncaught
exception — one whose class none of the four transport-error handlers
catches — and `parse_hosts` writes no file. -/
theorem malformed_body_raises_uncaught_no_file (inv : AnsibleInventory)
    (e d : String) (openOk : Bool)
    (netH : NetOutcome HostRecord) (bH : BodyContent HostRecord) (exH : PyExn)
    (netE : NetOutcome EnvRecord) (bE : BodyContent EnvRecord) (exE : PyExn)
    (h1 : classifyFetch netH = .ok bH) (h2 : parseBody bH = .error exH)
    (h3 : classifyFetch netE = .ok bE) (h4 : parseBody bE = .error exE) :
    parseHosts inv e d netH openOk = .uncaughtExn exH ∧
    writtenFile (parseHosts inv e d netH openOk) = none ∧
    caughtByExceptHandlers exH.exnClass = false ∧
    parseEnvs inv netE = .uncaughtExn exE ∧
    caughtByExceptHandlers exE.exnClass = false := by
  have hHosts : parseHosts inv e d netH openOk = .uncaughtExn exH := by
    unfold parseHosts
    rw [h1]
    cases bH with
    | resultsOf records => simp [parseBody] at h2
    | invalidJson =>
      simp only [parseBody, Except.error.injEq] at h2
      rw [← h2]
      rfl
    | missingResults =>
      simp only [parseBody, Except.error.injEq] at h2
      rw [← h2]
      rfl
  have hEnvs : parseEnvs inv netE = .uncaughtExn exE := by
    unfold parseEnvs
    rw [h3]
    cases bE with
    | resultsOf records => simp [parseBody] at h4
    | invalidJson =>
      simp only [parseBody, Except.error.injEq] at h4
      rw [← h4]
      rfl
    | missingResults =>
      simp only [parseBody, Except.error.injEq] at h4
      rw [← h4]
      rfl
  have hclass : ∀ ex : PyExn, caughtByExceptHandlers ex.exnClass = false := by
    intro ex
    cases ex <;> rfl
  exact ⟨hHosts, by rw [hHosts]; rfl, hclass exH, hEnvs, hclass exE⟩

theorem malformed_body_raises_uncaught_no_file_witness :
    parseHosts sampleInv "7" "01/01/2026 00:00:00"
        (.response 200 .invalidJson) true = .uncaughtExn .jsonDecodeError ∧
    writtenFile (parseHosts sampleInv "7" "01/01/2026 00:00:00"
        (.response 200 .invalidJson) true) = none ∧
    caughtByExceptHandlers PyExn.jsonDecodeError.exnClass = false ∧
    parseEnvs sampleInv (.response 200 .missingResults)
        = .uncaughtExn (.keyError "results") ∧
    caughtByExceptHandlers (PyExn.keyError "results").exnClass = false :=
  malformed_body_raises_uncaught_no_file sampleInv "7" "01/01/2026 00:00:00"
    true (.response 200 .invalidJson) .invalidJson .jsonDecodeError
    (.response 200 .missingResults) .missingResults (.keyError "results")
    rfl rfl rfl rfl

/-- C10: `parse_hosts` writes to the path computed at construction time from
the constructor's `envid`, not from its own `environment_id` parameter:
when the two differ, the request URL and the header comment use the
parameter while the written file's path ends in the constructor's envid. -/
theorem parse_hosts_path_from_constructor_envid
    (home sep base_url username password hostfile cenv penv fdate : String)
    (records : List HostRecord) (_h : cenv ≠ penv) :
    hostsUrl (AnsibleInventory.make cenv base_url username password hostfile home sep)
        penv = base_url ++ penv ++ "/hosts?per_page=100000" ∧
    writtenFile (parseHosts
        (AnsibleInventory.make cenv base_url username password hostfile home sep)
        penv fdate (.response 200 (.resultsOf records)) true)
      = some (home ++ sep ++ hostfile ++ cenv,
          headerLine penv fdate ++
            renderGroups (groupPairs
              (records.map fun r => (r.hostgroup_title, r.name)))) :=
  ⟨rfl, rfl⟩

theorem parse_hosts_path_from_constructor_envid_witness :
    hostsUrl (AnsibleInventory.make "1" "https://f/api/environments/" "u" "pw"
        "hosts_" "/home/u" "/") "2"
        = "https://f/api/environments/" ++ "2" ++ "/hosts?per_page=100000" ∧
    writtenFile (parseHosts
        (AnsibleInventory.make "1" "https://f/api/environments/" "u" "pw"
          "hosts_" "/home/u" "/")
        "2" "01/01/2026 00:00:00"
        (.response 200 (.resultsOf [⟨"g", "h"⟩])) true)
      = some ("/home/u" ++ "/" ++ "hosts_" ++ "1",
          headerLine "2" "01/01/2026 00:00:00" ++
            renderGroups (groupPairs
              (([⟨"g", "h"⟩] : List HostRecord).map
                fun r => (r.hostgroup_title, r.name)))) :=
  parse_hosts_path_from_constructor_envid "/home/u" "/"
    "https://f/api/environments/" "u" "pw" "hosts_" "1" "2"
    "01/01/2026 00:00:00" [⟨"g", "h"⟩] (by decide)

end Foreman
